import Mathlib

/-!
Shallow embedding of the iris OAuth adaptor (`adaptors/oauth/oauth.go`).

The adaptor wires the external `goth` OAuth library into the iris web
framework.  External behavior (the provider library's `BeginAuth`,
`UnmarshalSession`, `Authorize`, `FetchUser`, `GetAuthURL`, `Marshal`) is
delegated: providers and sessions carry those operations as oracle function
fields, exactly as the Go code treats them as opaque interface calls.  The
iris request context (`path` parameters, URL query parameters, the session
store and the per-request key/value store) is modelled by explicit state
passing on a `Ctx` record.
-/

namespace goth

/-- `goth.User`: the user record produced by the external provider library.
The adaptor only constructs the zero value and passes fetched users through. -/
structure User where
  provider : String
  name : String
  email : String
deriving Repr, DecidableEq, Inhabited

/-- `goth.Session`: an opaque provider session.  `getAuthURL`, `marshal` and
`authorize` model the results of the external library calls `GetAuthURL()`,
`Marshal()` and `Authorize(provider, query)` (the adaptor only inspects the
error side of `Authorize`). -/
structure Session where
  getAuthURL : Except String String
  marshal : String
  authorize : List (String × String) → Except String String

/-- `goth.Provider`: an OAuth provider as seen through the library interface.
`beginAuth` takes the state string, `unmarshalSession` the stored blob. -/
structure Provider where
  name : String
  beginAuth : String → Except String Session
  unmarshalSession : String → Except String Session
  fetchUser : Session → Except String User

/-- `goth.GetProvider(name)`: look the name up in the provider registry;
on a miss the library reports `no provider for <name> exists`. -/
def GetProvider (registry : List Provider) (name : String) : Except String Provider :=
  match registry.find? (fun pr => pr.name == name) with
  | some pr => Except.ok pr
  | none => Except.error ("no provider for " ++ name ++ " exists")

/-- `goth.UseProviders`: add the given providers to the registry. -/
def UseProviders (registry : List Provider) (ps : List Provider) : List Provider :=
  registry ++ ps

end goth

/-- Association-list lookup that returns the empty string when the key is
absent, matching how iris' `ctx.Param` and `ctx.URLParam` report a missing
parameter. -/
def lookupStr (l : List (String × String)) (k : String) : String :=
  match l.find? (fun kv => kv.1 == k) with
  | some kv => kv.2
  | none => ""

/-- A value held in the per-request key/value store (`ctx.Set`/`ctx.Get`
store `interface` values; the adaptor stores a `goth.User`). -/
inductive StoreValue where
  | user (u : goth.User)
  | str (s : String)
deriving Repr, DecidableEq

/-- The iris request context, restricted to the parts the adaptor touches:
path parameters, URL query parameters, the session store and the per-request
key/value store. -/
structure Ctx where
  pathParams : List (String × String)
  urlParams : List (String × String)
  session : List (String × String)
  values : List (String × StoreValue)
deriving Repr, DecidableEq

/-- `ctx.Param(key)`: path parameter, empty string when absent. -/
def Ctx.Param (ctx : Ctx) (k : String) : String :=
  lookupStr ctx.pathParams k

/-- `ctx.URLParam(key)`: URL query parameter, empty string when absent. -/
def Ctx.URLParam (ctx : Ctx) (k : String) : String :=
  lookupStr ctx.urlParams k

/-- `ctx.Session().Get(key)`: `none` models the `nil` interface value. -/
def Ctx.sessionGet (ctx : Ctx) (k : String) : Option String :=
  (ctx.session.find? (fun kv => kv.1 == k)).map Prod.snd

/-- `ctx.Session().GetString(key)`: empty string when absent. -/
def Ctx.sessionGetString (ctx : Ctx) (k : String) : String :=
  lookupStr ctx.session k

/-- `ctx.Session().Set(key, value)`: map update (newest entry shadows). -/
def Ctx.sessionSet (ctx : Ctx) (k v : String) : Ctx :=
  { ctx with session := (k, v) :: ctx.session }

/-- `ctx.Get(key)` on the per-request store; `none` models `nil`. -/
def Ctx.Get (ctx : Ctx) (k : String) : Option StoreValue :=
  (ctx.values.find? (fun kv => kv.1 == k)).map Prod.snd

/-- `ctx.Set(key, value)` on the per-request store. -/
def Ctx.Set (ctx : Ctx) (k : String) (v : StoreValue) : Ctx :=
  { ctx with values := (k, v) :: ctx.values }

/-- HTTP status 401, `iris.StatusUnauthorized`. -/
def StatusUnauthorized : Nat := 401

/-- HTTP status 404, `iris.StatusNotFound`. -/
def StatusNotFound : Nat := 404

/-- The client-visible outcome of a handler: a redirect, `ctx.NotFound()`
(which emits the 404 error response) or `ctx.EmitError(status)`. -/
inductive Response where
  | redirect (url : String)
  | notFound
  | emitError (status : Nat)
deriving Repr, DecidableEq

/-- The HTTP status carried by a `Response` (iris redirects with 302 by
default; `ctx.NotFound()` emits `iris.StatusNotFound`). -/
def Response.status : Response → Nat
  | Response.redirect _ => 302
  | Response.notFound => StatusNotFound
  | Response.emitError s => s

namespace oauth

/-- `SessionValueKey` is the key used to access the session store. -/
def SessionValueKey : String := "auth.session"

/-- A client key/secret pair for one provider. -/
structure Credentials where
  key : String
  secret : String
deriving Repr, DecidableEq

/-- Modelled from the spec: the declaration of `Config` (the adaptor's
`config.go`) is not in `src/`; only its use sites in `oauth.go` are.  The
spec describes it as "a static configuration record mapping provider names
to credential pairs", "plus path templates and a route name used for reverse
URL generation".  The fields `RequestPath`, `CallbackRelativePath`,
`RequestPathParam`, `RouteName` and `ContextKey` are exactly those read by
`oauth.go`; `providers` is the provider-name-to-credential-pair map. -/
structure Config where
  RequestPath : String
  CallbackRelativePath : String
  RequestPathParam : String
  RouteName : String
  ContextKey : String
  providers : List (String × Credentials)

/-- Modelled from the spec: `Config.GenerateProviders` (in the missing
`config.go`) builds the provider list handed to `goth.UseProviders` from the
configuration record, given the host's virtual scheme+host for callback URL
construction.  A provider is configured when its credential pair is set
(non-empty key); each configured map entry yields the one provider built by
the external constructor `mk` for that entry.  `mk` abstracts the external
per-provider constructors (e.g. `github.New`), which name the provider after
its map entry. -/
def Config.GenerateProviders (c : Config)
    (mk : String → String → Credentials → goth.Provider) (vurl : String) :
    List goth.Provider :=
  (c.providers.filter (fun pc => pc.2.key != "")).map (fun pc => mk vurl pc.1 pc.2)

/-- The `Oauth` adaptor record.  `failHandler` is `some` when `Fail`
registered an error handler (the handler body itself is host-app code). -/
structure Oauth where
  Config : Config
  failHandler : Option Unit

/-- `setState(ctx)`: the state string sent to the provider; the `state`
query parameter when present, the literal `state` otherwise. -/
def setState (ctx : Ctx) : String :=
  let state := ctx.URLParam "state"
  if state.length > 0 then state else "state"

/-- `GetProviderName`: the path parameter named by `Config.RequestPathParam`,
falling back to the URL query parameter of the same name; an error when both
are empty. -/
def Oauth.GetProviderName (p : Oauth) (ctx : Ctx) : Except String String :=
  let provider := ctx.Param p.Config.RequestPathParam
  let provider := if provider = "" then ctx.URLParam p.Config.RequestPathParam else provider
  if provider = "" then
    Except.error "getProviderName error: you must select a provider"
  else
    Except.ok provider

/-- `GetAuthURL`: resolve the provider name, look the provider up in the
registry, begin the auth session, obtain the authorization URL, and only
then persist the marshalled session blob under `SessionValueKey`.  Returns
the possibly-updated context alongside the result. -/
def Oauth.GetAuthURL (p : Oauth) (registry : List goth.Provider) (ctx : Ctx) :
    Except String String × Ctx :=
  match p.GetProviderName ctx with
  | Except.error e => (Except.error e, ctx)
  | Except.ok providerName =>
    match goth.GetProvider registry providerName with
    | Except.error e => (Except.error e, ctx)
    | Except.ok provider =>
      match provider.beginAuth (setState ctx) with
      | Except.error e => (Except.error e, ctx)
      | Except.ok sess =>
        match sess.getAuthURL with
        | Except.error e => (Except.error e, ctx)
        | Except.ok url =>
          (Except.ok url, ctx.sessionSet SessionValueKey sess.marshal)

/-- `BeginAuthHandler`: on a `GetAuthURL` failure call `ctx.NotFound()` and
return the error; on success redirect to the authorization URL.  The first
component is the error returned to the route handler (logged there). -/
def Oauth.BeginAuthHandler (p : Oauth) (registry : List goth.Provider) (ctx : Ctx) :
    Option String × Response × Ctx :=
  match p.GetAuthURL registry ctx with
  | (Except.error e, ctx2) => (some e, Response.notFound, ctx2)
  | (Except.ok url, ctx2) => (none, Response.redirect url, ctx2)

/-- `CompleteUserAuth`: resolve the provider name, look the provider up,
require a stored session blob under `SessionValueKey`, unmarshal it,
authorize against the callback query parameters, and fetch the user. -/
def Oauth.CompleteUserAuth (p : Oauth) (registry : List goth.Provider) (ctx : Ctx) :
    Except String goth.User :=
  match p.GetProviderName ctx with
  | Except.error e => Except.error e
  | Except.ok providerName =>
    match goth.GetProvider registry providerName with
    | Except.error e => Except.error e
    | Except.ok provider =>
      if ctx.sessionGet SessionValueKey = none then
        Except.error "completeUserAuth error: could not find a matching session for this request"
      else
        match provider.unmarshalSession (ctx.sessionGetString SessionValueKey) with
        | Except.error e => Except.error e
        | Except.ok sess =>
          match sess.authorize ctx.urlParams with
          | Except.error e => Except.error e
          | Except.ok _ => provider.fetchUser sess

/-- The outcome of running the callback auth middleware: the emitted error
response if any, whether `ctx.Next()` was called (registered success
handlers run exactly when it is, since the middleware is prepended to the
chain), and the resulting context. -/
structure MwResult where
  response : Option Response
  nextCalled : Bool
  ctx : Ctx
deriving Repr, DecidableEq

/-- The `authMiddleware` closure registered by `boot` as the first handler
of the callback route: on a `CompleteUserAuth` failure emit
`StatusUnauthorized` and stop; on success store the user under
`Config.ContextKey` and call `ctx.Next()`. -/
def Oauth.authMiddleware (p : Oauth) (registry : List goth.Provider) (ctx : Ctx) :
    MwResult :=
  match p.CompleteUserAuth registry ctx with
  | Except.error _ =>
    { response := some (Response.emitError StatusUnauthorized)
      nextCalled := false
      ctx := ctx }
  | Except.ok user =>
    { response := none
      nextCalled := true
      ctx := ctx.Set p.Config.ContextKey (StoreValue.user user) }

/-- The request-initiation route handler registered by `boot`: run
`BeginAuthHandler` and log the error, if any.  The `Bool` records whether
the runtime error was logged. -/
def Oauth.requestPathHandler (p : Oauth) (registry : List goth.Provider) (ctx : Ctx) :
    Response × Ctx × Bool :=
  match p.BeginAuthHandler registry ctx with
  | (some _, r, ctx2) => (r, ctx2, true)
  | (none, r, ctx2) => (r, ctx2, false)

/-- A route registration: its path and, for the request-initiation route,
the name set by `ChangeName`. -/
structure Route where
  path : String
  name : Option String
deriving Repr, DecidableEq

/-- Everything `boot` registers against the framework: whether the
disabled-adaptor message was logged, the provider registry after `boot`,
the registered routes, and whether an `OnError(StatusUnauthorized)` handler
was installed. -/
structure BootResult where
  disabledLog : Bool
  registry : List goth.Provider
  routes : List Route
  errorHandlerRegistered : Bool

/-- `boot`: if any of `RequestPath`, `CallbackRelativePath` or
`RequestPathParam` is empty, log and register nothing; otherwise generate
the providers and, only when at least one was generated, register them,
the two routes, and (when a fail handler was set) the 401 error handler. -/
def Oauth.boot (p : Oauth) (mk : String → String → Credentials → goth.Provider)
    (registry : List goth.Provider) (vurl : String) : BootResult :=
  if p.Config.RequestPath = "" ∨ p.Config.CallbackRelativePath = ""
      ∨ p.Config.RequestPathParam = "" then
    { disabledLog := true
      registry := registry
      routes := []
      errorHandlerRegistered := false }
  else
    let oauthProviders := p.Config.GenerateProviders mk vurl
    if 0 < oauthProviders.length then
      { disabledLog := false
        registry := goth.UseProviders registry oauthProviders
        routes := [{ path := p.Config.RequestPath, name := some p.Config.RouteName },
                   { path := p.Config.RequestPath ++ p.Config.CallbackRelativePath, name := none }]
        errorHandlerRegistered := p.failHandler.isSome }
    else
      { disabledLog := false
        registry := registry
        routes := []
        errorHandlerRegistered := false }

/-- `User`: `ctx.Get(Config.ContextKey).(goth.User)`, an unchecked type
assertion.  The error result models the Go runtime panic raised when the
stored value is absent or not a `goth.User`. -/
def Oauth.User (p : Oauth) (ctx : Ctx) : Except String goth.User :=
  match ctx.Get p.Config.ContextKey with
  | some (StoreValue.user u) => Except.ok u
  | _ => Except.error "panic: interface conversion: interface is nil, not goth.User"

end oauth

/-! Concrete instances used by witnesses and counterexamples. -/

/-- A concrete provider session for witnesses. -/
def sessEx : goth.Session :=
  { getAuthURL := Except.ok "https://github.test/authorize"
    marshal := "blob"
    authorize := fun _ => Except.ok "token" }

/-- A concrete registered provider for witnesses. -/
def provEx : goth.Provider :=
  { name := "github"
    beginAuth := fun _ => Except.ok sessEx
    unmarshalSession := fun _ => Except.ok sessEx
    fetchUser := fun _ => Except.ok { provider := "github", name := "gopher", email := "g@example.test" } }

/-- A concrete registry holding only `provEx`. -/
def regEx : List goth.Provider := [provEx]

/-- A concrete adaptor configuration for witnesses. -/
def cfgEx : oauth.Config :=
  { RequestPath := "/oauth"
    CallbackRelativePath := "/callback"
    RequestPathParam := "provider"
    RouteName := "oauth"
    ContextKey := "user"
    providers := [("github", { key := "k", secret := "s" })] }

/-- A concrete adaptor built from `cfgEx` with no fail handler. -/
def pEx : oauth.Oauth := { Config := cfgEx, failHandler := none }

/-- The empty request context. -/
def ctxEmpty : Ctx := { pathParams := [], urlParams := [], session := [], values := [] }

/-- A context selecting provider `github` through the path parameter. -/
def ctxGithub : Ctx := { ctxEmpty with pathParams := [("provider", "github")] }

/-- A context selecting provider `gitlab` through the query parameter only. -/
def ctxQuery : Ctx := { ctxEmpty with urlParams := [("provider", "gitlab")] }

/-- A context with conflicting path and query provider parameters. -/
def ctxBoth : Ctx :=
  { ctxEmpty with
    pathParams := [("provider", "github")]
    urlParams := [("provider", "gitlab")] }

/-- The user record stored by the middleware in `ctxWithUser`. -/
def userEx : goth.User := { provider := "github", name := "gopher", email := "g@example.test" }

/-- A context in which the callback middleware has stored `userEx`. -/
def ctxWithUser : Ctx := { ctxEmpty with values := [("user", StoreValue.user userEx)] }

/-! Claim theorems. -/

/-- C4: for every callback request the auth middleware either emits
`StatusUnauthorized` without calling `ctx.Next()` and leaves the context
unchanged (so no registered success handler runs), or stores the fetched
user under `Config.ContextKey` and calls `ctx.Next()` with no error
response (so the 401 error handler does not fire) — never both. -/
theorem oauth.authMiddleware_mutually_exclusive
    (p : oauth.Oauth) (registry : List goth.Provider) (ctx : Ctx) :
    ((p.authMiddleware registry ctx).response = some (Response.emitError StatusUnauthorized)
      ∧ (p.authMiddleware registry ctx).nextCalled = false
      ∧ (p.authMiddleware registry ctx).ctx = ctx)
    ∨ ((p.authMiddleware registry ctx).response = none
      ∧ (p.authMiddleware registry ctx).nextCalled = true
      ∧ ∃ u, (p.authMiddleware registry ctx).ctx.Get p.Config.ContextKey
          = some (StoreValue.user u)) := by
  cases h : p.CompleteUserAuth registry ctx with
  | error e =>
    left
    simp [oauth.Oauth.authMiddleware, h]
  | ok u =>
    right
    refine ⟨by simp [oauth.Oauth.authMiddleware, h], by simp [oauth.Oauth.authMiddleware, h], u, ?_⟩
    simp [oauth.Oauth.authMiddleware, h, Ctx.Set, Ctx.Get]

/-- C5: `GetProviderName` fails exactly when the provider name is absent:
when both the path parameter and the URL query parameter named by
`Config.RequestPathParam` are empty it returns the `you must select a
provider` error; when the path parameter is non-empty it returns that
non-empty path value with no error; and when only the query parameter is
non-empty it returns that non-empty query value with no error. -/
theorem oauth.getProviderName_fails_iff_absent (p : oauth.Oauth) (ctx : Ctx) :
    (ctx.Param p.Config.RequestPathParam = "" ∧ ctx.URLParam p.Config.RequestPathParam = "" →
      p.GetProviderName ctx
        = Except.error "getProviderName error: you must select a provider")
    ∧ (ctx.Param p.Config.RequestPathParam ≠ "" →
      p.GetProviderName ctx = Except.ok (ctx.Param p.Config.RequestPathParam))
    ∧ (ctx.Param p.Config.RequestPathParam = ""
        → ctx.URLParam p.Config.RequestPathParam ≠ "" →
      p.GetProviderName ctx = Except.ok (ctx.URLParam p.Config.RequestPathParam)) := by
  by_cases h1 : ctx.Param p.Config.RequestPathParam = "" <;>
    by_cases h2 : ctx.URLParam p.Config.RequestPathParam = "" <;>
    simp [oauth.Oauth.GetProviderName, h1, h2]

/-- C5 witness: the empty request gets the missing-provider error, a
request carrying the path parameter `github` succeeds with `github`, and
a request carrying only the query parameter `gitlab` succeeds with
`gitlab`. -/
theorem oauth.getProviderName_fails_iff_absent_witness :
    pEx.GetProviderName ctxEmpty
      = Except.error "getProviderName error: you must select a provider"
    ∧ pEx.GetProviderName ctxGithub = Except.ok "github"
    ∧ pEx.GetProviderName ctxQuery = Except.ok "gitlab" :=
  ⟨(oauth.getProviderName_fails_iff_absent pEx ctxEmpty).1 ⟨rfl, rfl⟩,
   (oauth.getProviderName_fails_iff_absent pEx ctxGithub).2.1 (by decide),
   (oauth.getProviderName_fails_iff_absent pEx ctxQuery).2.2 rfl (by decide)⟩

/-- C9: the path parameter takes precedence: whenever the path parameter
named by `Config.RequestPathParam` is non-empty, `GetProviderName` returns
it and the query parameter of the same name is ignored. -/
theorem oauth.getProviderName_path_precedence (p : oauth.Oauth) (ctx : Ctx)
    (h : ctx.Param p.Config.RequestPathParam ≠ "") :
    p.GetProviderName ctx = Except.ok (ctx.Param p.Config.RequestPathParam) := by
  simp [oauth.Oauth.GetProviderName, h]

/-- C9 witness: with path parameter `github` and query parameter `gitlab`
under the same name, the path value wins. -/
theorem oauth.getProviderName_path_precedence_witness :
    pEx.GetProviderName ctxBoth = Except.ok "github" :=
  oauth.getProviderName_path_precedence pEx ctxBoth (by decide)

/-- C10: `User` performs an unchecked type assertion on the value stored
at `Config.ContextKey`: when the middleware stored a user there it is
returned, and on a context with no entry the assertion's failure branch
(the modelled panic) is reached — no user is returned as a normal value. -/
theorem oauth.user_unchecked_assertion (p : oauth.Oauth) (ctx : Ctx) :
    (∀ u, ctx.Get p.Config.ContextKey = some (StoreValue.user u) → p.User ctx = Except.ok u)
    ∧ (ctx.Get p.Config.ContextKey = none →
        p.User ctx = Except.error "panic: interface conversion: interface is nil, not goth.User"
        ∧ ∀ u, p.User ctx ≠ Except.ok u) := by
  constructor
  · intro u h
    simp [oauth.Oauth.User, h]
  · intro h
    constructor
    · simp [oauth.Oauth.User, h]
    · intro u
      simp [oauth.Oauth.User, h]

/-- C10 witness: on a context holding `userEx` the user is returned; on
the empty context the panic branch is reached. -/
theorem oauth.user_unchecked_assertion_witness :
    pEx.User ctxWithUser = Except.ok userEx
    ∧ pEx.User ctxEmpty
      = Except.error "panic: interface conversion: interface is nil, not goth.User" :=
  ⟨(oauth.user_unchecked_assertion pEx ctxWithUser).1 userEx rfl,
   ((oauth.user_unchecked_assertion pEx ctxEmpty).2 rfl).1⟩

/-- C2 counterexample: on a callback request with no stored session but
also no provider parameter, `CompleteUserAuth` returns the
missing-provider-name error, not the `could not find a matching session`
error — so the error does depend on the rest of the request. -/
theorem oauth.completeUserAuth_no_session_counterexample :
    ctxEmpty.sessionGet oauth.SessionValueKey = none
    ∧ pEx.CompleteUserAuth regEx ctxEmpty
        = Except.error "getProviderName error: you must select a provider"
    ∧ ("getProviderName error: you must select a provider" : String)
        ≠ "completeUserAuth error: could not find a matching session for this request" :=
  ⟨rfl, rfl, by decide⟩

/-- C2 (amended): on a callback request whose provider name resolves and
whose provider is registered, the absence of a session-store entry under
`SessionValueKey` makes `CompleteUserAuth` return the `could not find a
matching session` error (the zero user, in the `Except` model). -/
theorem oauth.completeUserAuth_no_session (p : oauth.Oauth)
    (registry : List goth.Provider) (ctx : Ctx) (name : String) (pr : goth.Provider)
    (hn : p.GetProviderName ctx = Except.ok name)
    (hp : goth.GetProvider registry name = Except.ok pr)
    (hs : ctx.sessionGet oauth.SessionValueKey = none) :
    p.CompleteUserAuth registry ctx
      = Except.error "completeUserAuth error: could not find a matching session for this request" := by
  simp [oauth.Oauth.CompleteUserAuth, hn, hp, hs]

/-- C2 witness: provider `github` resolves from the path parameter and is
registered, the session store is empty, and the matching-session error is
returned. -/
theorem oauth.completeUserAuth_no_session_witness :
    pEx.CompleteUserAuth regEx ctxGithub
      = Except.error "completeUserAuth error: could not find a matching session for this request" :=
  oauth.completeUserAuth_no_session pEx regEx ctxGithub "github" provEx rfl rfl rfl

/-- C3: when the resolved provider name is registered under no provider in
the registry, both `GetAuthURL` and `CompleteUserAuth` return the lookup
error produced by `goth.GetProvider` (and leave the context unchanged) —
never a URL or a user. -/
theorem oauth.unregistered_provider_lookup_error (p : oauth.Oauth)
    (registry : List goth.Provider) (ctx : Ctx) (name : String)
    (hn : p.GetProviderName ctx = Except.ok name)
    (hr : ∀ pr ∈ registry, pr.name ≠ name) :
    p.GetAuthURL registry ctx = (Except.error ("no provider for " ++ name ++ " exists"), ctx)
    ∧ p.CompleteUserAuth registry ctx
        = Except.error ("no provider for " ++ name ++ " exists") := by
  have hfind : registry.find? (fun pr => pr.name == name) = none := by
    rw [List.find?_eq_none]
    intro pr hpr
    simpa using hr pr hpr
  have hlook : goth.GetProvider registry name
      = Except.error ("no provider for " ++ name ++ " exists") := by
    simp [goth.GetProvider, hfind]
  exact ⟨by simp [oauth.Oauth.GetAuthURL, hn, hlook],
    by simp [oauth.Oauth.CompleteUserAuth, hn, hlook]⟩

/-- C3 witness: provider `github` resolves but the registry is empty, and
both operations return the lookup error. -/
theorem oauth.unregistered_provider_lookup_error_witness :
    pEx.GetAuthURL [] ctxGithub
      = (Except.error "no provider for github exists", ctxGithub)
    ∧ pEx.CompleteUserAuth [] ctxGithub
      = Except.error "no provider for github exists" :=
  oauth.unregistered_provider_lookup_error pEx [] ctxGithub "github" rfl (by simp)

/-- C1 counterexample: a request to the request-initiation route failing
with the missing-provider-name error kind is answered by `ctx.NotFound()`,
whose status is 404 Not Found — not 401 Unauthorized. -/
theorem oauth.beginRoute_error_not_401_counterexample :
    (pEx.BeginAuthHandler regEx ctxEmpty).1
      = some "getProviderName error: you must select a provider"
    ∧ (pEx.BeginAuthHandler regEx ctxEmpty).2.1 = Response.notFound
    ∧ Response.notFound.status = StatusNotFound
    ∧ StatusNotFound ≠ StatusUnauthorized :=
  ⟨rfl, rfl, rfl, by decide⟩

/-- C1 (amended): callback-route failures of any of the three error kinds
are reported with an HTTP 401 Unauthorized response by the auth middleware,
while request-initiation-route failures are reported through
`ctx.NotFound()` with an HTTP 404 Not Found response. -/
theorem oauth.failure_response_statuses (p : oauth.Oauth)
    (registry : List goth.Provider) (ctx : Ctx) :
    (∀ e, (p.BeginAuthHandler registry ctx).1 = some e →
        (p.BeginAuthHandler registry ctx).2.1 = Response.notFound
        ∧ (p.BeginAuthHandler registry ctx).2.1.status = StatusNotFound)
    ∧ (∀ e, p.CompleteUserAuth registry ctx = Except.error e →
        (p.authMiddleware registry ctx).response
          = some (Response.emitError StatusUnauthorized)
        ∧ (p.authMiddleware registry ctx).nextCalled = false) := by
  constructor
  · intro e he
    cases hg : p.GetAuthURL registry ctx with
    | mk res ctx2 =>
      cases res with
      | error e2 => simp [oauth.Oauth.BeginAuthHandler, hg, Response.status]
      | ok url => simp [oauth.Oauth.BeginAuthHandler, hg] at he
  · intro e he
    simp [oauth.Oauth.authMiddleware, he]

/-- C1 witness: a failing request-initiation request gets the 404 response
and a failing callback request gets the 401 response. -/
theorem oauth.failure_response_statuses_witness :
    (pEx.BeginAuthHandler [] ctxGithub).2.1 = Response.notFound
    ∧ (pEx.authMiddleware [] ctxGithub).response
        = some (Response.emitError StatusUnauthorized) :=
  ⟨((oauth.failure_response_statuses pEx [] ctxGithub).1
      "no provider for github exists" rfl).1,
   ((oauth.failure_response_statuses pEx [] ctxGithub).2
      "no provider for github exists" rfl).1⟩

/-- Looking up the key just written by `sessionSet` yields the new value. -/
theorem Ctx.sessionGet_sessionSet_same (ctx : Ctx) (k v : String) :
    (ctx.sessionSet k v).sessionGet k = some v := by
  simp [Ctx.sessionSet, Ctx.sessionGet, List.find?_cons]

/-- Looking up any other key after `sessionSet` is unchanged. -/
theorem Ctx.sessionGet_sessionSet_other (ctx : Ctx) (k v k2 : String)
    (h : k2 ≠ k) :
    (ctx.sessionSet k v).sessionGet k2 = ctx.sessionGet k2 := by
  simp [Ctx.sessionSet, Ctx.sessionGet, List.find?_cons, Ne.symm h]

/-- Shape of a `GetAuthURL` run: either it fails and returns the context
untouched, or it succeeds and the only context change is the session write
under `SessionValueKey`. -/
theorem oauth.getAuthURL_result_shape (p : oauth.Oauth)
    (registry : List goth.Provider) (ctx : Ctx) :
    (∃ e, p.GetAuthURL registry ctx = (Except.error e, ctx))
    ∨ (∃ url blob, p.GetAuthURL registry ctx
        = (Except.ok url, ctx.sessionSet oauth.SessionValueKey blob)) := by
  unfold oauth.Oauth.GetAuthURL
  split
  · exact Or.inl ⟨_, rfl⟩
  · split
    · exact Or.inl ⟨_, rfl⟩
    · split
      · exact Or.inl ⟨_, rfl⟩
      · split
        · exact Or.inl ⟨_, rfl⟩
        · exact Or.inr ⟨_, _, rfl⟩

/-- C6: `GetAuthURL` persists exactly one session entry, under the single
key `SessionValueKey`, and only on success: on any failure the session
store is returned unchanged, and on success the store maps
`SessionValueKey` to the marshalled blob and every other key to its old
value. -/
theorem oauth.getAuthURL_session_atomic (p : oauth.Oauth)
    (registry : List goth.Provider) (ctx : Ctx) :
    (∀ e ctx2, p.GetAuthURL registry ctx = (Except.error e, ctx2) →
        ctx2.session = ctx.session)
    ∧ (∀ url ctx2, p.GetAuthURL registry ctx = (Except.ok url, ctx2) →
        ∃ blob, ctx2.sessionGet oauth.SessionValueKey = some blob
          ∧ ∀ k, k ≠ oauth.SessionValueKey → ctx2.sessionGet k = ctx.sessionGet k) := by
  rcases oauth.getAuthURL_result_shape p registry ctx with ⟨e, hg⟩ | ⟨url, blob, hg⟩
  · constructor
    · intro e2 ctx2 h
      rw [hg] at h
      obtain ⟨-, h2⟩ := Prod.mk.injEq .. ▸ h
      rw [← h2]
    · intro u ctx2 h
      rw [hg] at h
      exact absurd (congrArg Prod.fst h) (by simp)
  · constructor
    · intro e2 ctx2 h
      rw [hg] at h
      exact absurd (congrArg Prod.fst h) (by simp)
    · intro u ctx2 h
      rw [hg] at h
      have h2 : ctx.sessionSet oauth.SessionValueKey blob = ctx2 := congrArg Prod.snd h
      rw [← h2]
      exact ⟨blob, Ctx.sessionGet_sessionSet_same ctx _ _,
        fun k hk => Ctx.sessionGet_sessionSet_other ctx _ _ k hk⟩

/-- C6 witness: on a failing run the session store is unchanged, and on a
successful run other keys keep their old value. -/
theorem oauth.getAuthURL_session_atomic_witness :
    (pEx.GetAuthURL [] ctxGithub).2.session = ctxGithub.session
    ∧ (pEx.GetAuthURL regEx ctxGithub).2.sessionGet "other"
        = ctxGithub.sessionGet "other" := by
  constructor
  · exact (oauth.getAuthURL_session_atomic pEx [] ctxGithub).1
      "no provider for github exists" (pEx.GetAuthURL [] ctxGithub).2 rfl
  · obtain ⟨blob, hb, ho⟩ := (oauth.getAuthURL_session_atomic pEx regEx ctxGithub).2
      "https://github.test/authorize" (pEx.GetAuthURL regEx ctxGithub).2 rfl
    exact ho "other" (by decide)

/-- C8: with an empty `RequestPath`, `CallbackRelativePath` or
`RequestPathParam`, or with an empty generated provider list, `boot`
registers nothing at all: no routes, no change to the provider registry,
and no 401 error handler. -/
theorem oauth.boot_disabled_registers_nothing (p : oauth.Oauth)
    (mk : String → String → oauth.Credentials → goth.Provider)
    (registry : List goth.Provider) (vurl : String)
    (h : p.Config.RequestPath = "" ∨ p.Config.CallbackRelativePath = ""
        ∨ p.Config.RequestPathParam = ""
        ∨ p.Config.GenerateProviders mk vurl = []) :
    (p.boot mk registry vurl).routes = []
    ∧ (p.boot mk registry vurl).registry = registry
    ∧ (p.boot mk registry vurl).errorHandlerRegistered = false := by
  unfold oauth.Oauth.boot
  rcases h with h | h | h | h
  · simp [h]
  · simp [h]
  · simp [h]
  · split
    · simp
    · simp [h]

/-- A provider-constructor oracle for witnesses, naming the provider after
its configuration entry. -/
def mkEx : String → String → oauth.Credentials → goth.Provider :=
  fun _ n _ =>
    { name := n
      beginAuth := fun _ => Except.error "external"
      unmarshalSession := fun _ => Except.error "external"
      fetchUser := fun _ => Except.error "external" }

/-- An adaptor whose `RequestPath` is empty, with a fail handler set. -/
def pDisabled : oauth.Oauth :=
  { Config := { cfgEx with RequestPath := "" }, failHandler := some () }

/-- C8 witness: booting the empty-`RequestPath` adaptor registers nothing
even though a fail handler was set and a provider is configured. -/
theorem oauth.boot_disabled_registers_nothing_witness :
    (pDisabled.boot mkEx regEx "https://host").routes = []
    ∧ (pDisabled.boot mkEx regEx "https://host").registry = regEx
    ∧ (pDisabled.boot mkEx regEx "https://host").errorHandlerRegistered = false :=
  oauth.boot_disabled_registers_nothing pDisabled mkEx regEx "https://host" (Or.inl rfl)

/-- In a list of name-credential pairs with pairwise-distinct names, the
entries surviving the configured-credentials filter contain exactly one
entry named `n` when `(n, cr)` is a member whose credential key is set. -/
theorem countP_filter_key_eq_one (l : List (String × oauth.Credentials))
    (n : String) (cr : oauth.Credentials)
    (hnd : (l.map Prod.fst).Nodup) (hmem : (n, cr) ∈ l) (hck : cr.key ≠ "") :
    (l.filter (fun pc => pc.2.key != "")).countP (fun pc => pc.1 == n) = 1 := by
  induction l with
  | nil => cases hmem
  | cons pc l ih =>
    rw [List.map_cons, List.nodup_cons] at hnd
    obtain ⟨hhead, htail⟩ := hnd
    rcases List.mem_cons.mp hmem with heq | hmem2
    · subst heq
      rw [List.filter_cons_of_pos (by simpa using hck),
        List.countP_cons_of_pos _ _ (by simp)]
      have hzero : (l.filter (fun pc => pc.2.key != "")).countP (fun pc => pc.1 == n) = 0 := by
        rw [List.countP_eq_zero]
        intro a ha
        have hal : a ∈ l := List.mem_of_mem_filter ha
        have : a.1 ≠ n := by
          intro heq2
          exact hhead (heq2 ▸ List.mem_map.mpr ⟨a, hal, rfl⟩)
        simpa using this
      rw [hzero]
    · have hpcn : pc.1 ≠ n := by
        intro heq2
        exact hhead (heq2 ▸ List.mem_map.mpr ⟨(n, cr), hmem2, rfl⟩)
      by_cases hf : pc.2.key = ""
      · rw [List.filter_cons_of_neg (by simpa using hf)]
        exact ih htail hmem2
      · rw [List.filter_cons_of_pos (by simpa using hf),
          List.countP_cons_of_neg _ _ (by simpa using hpcn)]
        exact ih htail hmem2

/-- C7: for every configuration with distinct provider names, every
configured provider (one whose credential key is set) appears in the list
produced by `Config.GenerateProviders` exactly once — none omitted, none
duplicated — given that the external per-provider constructor names each
provider after its configuration entry. -/
theorem oauth.generateProviders_exactly_once (c : oauth.Config)
    (mk : String → String → oauth.Credentials → goth.Provider) (vurl : String)
    (hmk : ∀ v nm cr, (mk v nm cr).name = nm)
    (hnd : (c.providers.map Prod.fst).Nodup)
    (n : String) (cr : oauth.Credentials)
    (hmem : (n, cr) ∈ c.providers) (hck : cr.key ≠ "") :
    (c.GenerateProviders mk vurl).countP (fun pr => pr.name == n) = 1 := by
  unfold oauth.Config.GenerateProviders
  rw [List.countP_map]
  have hcomp : ((fun pr => pr.name == n) ∘ (fun pc => mk vurl pc.1 pc.2))
      = fun pc : String × oauth.Credentials => pc.1 == n := by
    funext pc
    simp [Function.comp, hmk]
  rw [hcomp]
  exact countP_filter_key_eq_one c.providers n cr hnd hmem hck

/-- C7 witness: in the concrete configuration the configured provider
`github` appears in the generated list exactly once. -/
theorem oauth.generateProviders_exactly_once_witness :
    (cfgEx.GenerateProviders mkEx "https://host").countP
      (fun pr => pr.name == "github") = 1 :=
  oauth.generateProviders_exactly_once cfgEx mkEx "https://host"
    (fun _ _ _ => rfl) (by decide) "github" { key := "k", secret := "s" }
    (by decide) (by decide)
